import Mathlib

/-!
Shallow embedding of the connection session lifecycle manager of the
`concurrentSockets` repository (src/app/src/utils/websocket.ts, the Redis
state-store facade bundled in the same file, src/app/src/utils/metrics.ts,
and the graceful-shutdown coordinator in src/unnamed/part_000, i.e.
shutdown.ts).

Modelling choices:
* JavaScript `Map` objects become association lists with `Map.set`
  replacement semantics (`mapSet`), `Map.get` (`mapGet`) and `Map.delete`
  (`mapDel`).
* The wall clock (`Date.now()`, milliseconds) is an explicit `now : Nat`
  parameter.  Redis `setEx key ttlSeconds v` stores an absolute expiry
  `now + ttlSeconds * 1000`; `get` hides entries whose expiry has passed,
  which is the Redis server's own TTL semantics.
* `ws.send` can throw; each transport handle carries a `sendOk` flag and a
  send attempt is recorded as a `.sent` or `.sendFailed` event.
* `setInterval` / `clearInterval` become a set of live interval timers; the
  heartbeat callback body is modelled by `heartbeatFire`, invoked only while
  its handle is still live.  `clearInterval` on an absent handle is a no-op,
  as in the runtime.
* Redis client failures are represented by `available = false` (client null
  or not ready) and by `opFails = true` (the backing command throws; every
  facade operation catches that and degrades to a failure value).
* Each event handler is a pure function `state -> (state, event trace)`;
  the trace records sends, store writes, transport closes and metric
  observations in program order.
-/

namespace ConcurrentSockets

/-- A JSON-like value, the shape of parsed inbound WebSocket messages. -/
inductive JsonVal where
  | null
  | bool (b : Bool)
  | num (n : Int)
  | str (s : String)
  | arr (elems : List JsonVal)
  | obj (fields : List (String × JsonVal))

/-- The control-message test of handleWebSocketMessage:
`typeof message === 'object' && message !== null && 'disconnect' in message`.
Only a non-null object with a `disconnect` key passes (a JS array is
`typeof 'object'` but has no `disconnect` property). -/
def isDisconnectControl : JsonVal → Bool
  | .obj fields => fields.any (fun kv => kv.1 == "disconnect")
  | _ => false

/-- The metadata bags the lifecycle controller passes to the state store:
one shape per call site. -/
inductive Metadata where
  | disconnected (disconnectedAt : Nat) (reason : String)
  | connected (connectedAt : Nat) (isReconnection : Bool)
  | lastMessage (msg : JsonVal) (lastMessageAt : Nat)

/-- The `ConnectionState` record persisted in Redis. -/
structure ConnectionState where
  connectionId : String
  messageCount : Nat
  lastActivity : Nat
  metadata : Metadata

/-- The Redis facade's visible state: availability of the client, whether
backing commands throw, and the key-value store with absolute expiry times. -/
structure RedisState where
  available : Bool
  opFails : Bool
  kv : List (String × (Nat × ConnectionState))

/-- Association-list lookup, the embedding of `Map.get` (also used for the
Redis key space). -/
def mapGet {α : Type} : List (String × α) → String → Option α
  | [], _ => none
  | p :: rest, k => if p.1 == k then some p.2 else mapGet rest k

/-- Association-list insert-or-replace, the embedding of `Map.set`. -/
def mapSet {α : Type} : List (String × α) → String → α → List (String × α)
  | [], k, v => [(k, v)]
  | p :: rest, k, v => if p.1 == k then (k, v) :: rest else p :: mapSet rest k v

/-- Association-list removal, the embedding of `Map.delete`. -/
def mapDel {α : Type} (m : List (String × α)) (k : String) : List (String × α) :=
  m.filter (fun p => p.1 != k)

/-- `REDIS_RECONNECT_TTL = 15 * 60` seconds: the reconnection window. -/
def REDIS_RECONNECT_TTL : Nat := 15 * 60

/-- Key construction: `websocket:connection:` ++ id (the fixed namespace). -/
def redisKey (connectionId : String) : String :=
  "websocket:connection:" ++ connectionId

/-- `isRedisAvailable`: `redisClient !== null && redisClient.isReady`. -/
def isRedisAvailable (r : RedisState) : Bool :=
  r.available

/-- `storeConnectionState`: short-circuits to `false` when unavailable;
otherwise `setEx key TTL state`, catching a thrown command as `false`. -/
def storeConnectionState (r : RedisState) (now : Nat) (connectionId : String)
    (messageCount : Nat) (metadata : Metadata) : RedisState × Bool :=
  if !(isRedisAvailable r) then (r, false)
  else if r.opFails then (r, false)
  else
    let st : ConnectionState := ⟨connectionId, messageCount, now, metadata⟩
    ({ r with
        kv := mapSet r.kv (redisKey connectionId)
          (now + REDIS_RECONNECT_TTL * 1000, st) }, true)

/-- `getConnectionState`: `none` when unavailable, when the backing command
throws, when no record exists, or when the record has expired. -/
def getConnectionState (r : RedisState) (now : Nat) (connectionId : String) :
    Option ConnectionState :=
  if !(isRedisAvailable r) then none
  else if r.opFails then none
  else
    match mapGet r.kv (redisKey connectionId) with
    | none => none
    | some (expiry, st) => if now < expiry then some st else none

/-- `updateConnectionState`: `false` when unavailable; if the key expired it
behaves as `storeConnectionState`; otherwise refreshes state and TTL. -/
def updateConnectionState (r : RedisState) (now : Nat) (connectionId : String)
    (messageCount : Nat) (metadata : Metadata) : RedisState × Bool :=
  if !(isRedisAvailable r) then (r, false)
  else if r.opFails then (r, false)
  else
    match mapGet r.kv (redisKey connectionId) with
    | none => storeConnectionState r now connectionId messageCount metadata
    | some (expiry, _) =>
      if now < expiry then
        ({ r with
            kv := mapSet r.kv (redisKey connectionId)
              (now + REDIS_RECONNECT_TTL * 1000,
               ⟨connectionId, messageCount, now, metadata⟩) }, true)
      else storeConnectionState r now connectionId messageCount metadata

/-- `removeConnectionState`: `false` when unavailable; otherwise `del`,
reporting whether a (live) key was deleted. -/
def removeConnectionState (r : RedisState) (now : Nat) (connectionId : String) :
    RedisState × Bool :=
  if !(isRedisAvailable r) then (r, false)
  else if r.opFails then (r, false)
  else
    let existed :=
      match mapGet r.kv (redisKey connectionId) with
      | none => false
      | some (expiry, _) => decide (now < expiry)
    ({ r with kv := mapDel r.kv (redisKey connectionId) }, existed)

/-- `closeRedis`: quits the client and nulls it out, so the facade reports
unavailable afterwards; the backing server (and its keys) is untouched. -/
def closeRedis (r : RedisState) : RedisState :=
  { r with available := false }

/-- A transport handle (`ElysiaWS`).  `handleId` is the opaque identity of
the underlying socket object; `sendOk` records whether `ws.send` succeeds
or throws. -/
structure WS where
  connectionId : String
  handleId : Nat
  sendOk : Bool
deriving Repr, DecidableEq

/-- An outbound message shape (each carries the `Date.now()` timestamp). -/
inductive OutMessage where
  | welcome (count : Nat) (timestamp : Nat)
  | reconnection (previousCount : Nat) (timestamp : Nat)
  | heartbeat (timestamp : Nat)
  | messageResponse (count : Nat) (timestamp : Nat)
  | disconnectAck (total : Nat) (reason : String) (timestamp : Nat)
  | shutdown (total : Nat) (reason : String) (bye : Bool) (timestamp : Nat)
deriving Repr, DecidableEq

/-- One observable step of a handler, in program order. -/
inductive Event where
  | sent (m : OutMessage)
  | sendFailed (m : OutMessage)
  | storePut (id : String) (count : Nat) (ok : Bool)
  | storeUpdate (id : String) (count : Nat) (ok : Bool)
  | scheduledRawClose (delayMs : Nat) (code : Nat) (reasonText : String)
  | rawClose (code : Nat) (reasonText : String)
  | metricConnDuration (ms : Nat)
  | metricLatency
  | shuttingDownSet (b : Bool)
  | readySet (b : Bool)
  | redisClosedEv
  | shutdownRecorded
  | scheduledExit (delayMs : Nat) (code : Nat)
  | exitNow (code : Nat)
deriving Repr, DecidableEq

/-- A live `setInterval` handle together with its period. -/
structure IntervalTimer where
  handle : Nat
  periodMs : Nat
deriving Repr, DecidableEq

/-- The module-level mutable state of websocket.ts plus the metric counters
it drives and the Redis facade state. -/
structure ServerState where
  connectionCounts : List (String × Nat)
  heartbeatIntervals : List (String × Nat)
  activeConnections : List (String × WS)
  connectionStartTimes : List (String × Nat)
  timers : List IntervalTimer
  nextTimer : Nat
  wsGauge : Int
  wsMessages : Nat
  redis : RedisState

/-- A `ws.send` attempt: succeeds or throws (caught and logged). -/
def sendEv (ws : WS) (m : OutMessage) : Event :=
  if ws.sendOk then .sent m else .sendFailed m

/-- `clearInterval` on an optional handle (`clearInterval(undefined)` and
`clearInterval` of an already-cleared handle are both no-ops). -/
def clearIntervalS (s : ServerState) (h : Option Nat) : ServerState :=
  match h with
  | none => s
  | some handle =>
    { s with timers := s.timers.filter (fun t => t.handle != handle) }

/-- `startHeartbeat`: registers a 30000 ms recurring interval and returns
its handle. -/
def startHeartbeat (s : ServerState) : ServerState × Nat :=
  ({ s with
      timers := ⟨s.nextTimer, 30000⟩ :: s.timers,
      nextTimer := s.nextTimer + 1 }, s.nextTimer)

/-- The body of the heartbeat interval callback: fires only while the
handle is live; sends a heartbeat, and on a send failure self-cancels its
own interval (and does nothing else -- no registry mutation). -/
def heartbeatFire (s : ServerState) (now : Nat) (handle : Nat) (ws : WS) :
    ServerState × List Event :=
  if s.timers.any (fun t => t.handle == handle) then
    if ws.sendOk then (s, [.sent (.heartbeat now)])
    else
      ({ s with timers := s.timers.filter (fun t => t.handle != handle) },
       [.sendFailed (.heartbeat now)])
  else (s, [])

/-- `gracefullyCloseConnection ws reason`: no-op when the handle carries no
connection id; otherwise persist the terminal record, then send the
`shutdown` notice and schedule `ws.raw.close(1001)` after a 100 ms delay;
if the send throws, the catch block closes immediately with 1001. -/
def gracefullyCloseConnection (s : ServerState) (now : Nat)
    (connectionId? : Option String) (sendOk : Bool) (reason : String) :
    ServerState × List Event :=
  match connectionId? with
  | none => (s, [])
  | some connectionId =>
    let total := (mapGet s.connectionCounts connectionId).getD 0
    let res := storeConnectionState s.redis now connectionId total
      (.disconnected now reason)
    let s1 := { s with redis := res.1 }
    if sendOk then
      (s1, [.storePut connectionId total res.2,
            .sent (.shutdown total reason true now),
            .scheduledRawClose 100 1001 "Normal closure"])
    else
      (s1, [.storePut connectionId total res.2,
            .sendFailed (.shutdown total reason true now),
            .rawClose 1001 "Server error"])

/-- `handleWebSocketOpen`: record the start time, look up the persisted
record; on (record found && store available) send a `reconnection` notice
seeded from the stored count, otherwise a `welcome` with count 0; set the
in-memory count, refresh the store, start the heartbeat, register the
handle, and increment the connection gauge. -/
def handleWebSocketOpen (s : ServerState) (now : Nat) (ws : WS) :
    ServerState × List Event :=
  let id := ws.connectionId
  let s0 := { s with connectionStartTimes := mapSet s.connectionStartTimes id now }
  let stored := getConnectionState s0.redis now id
  let branch : Nat × Bool × Event :=
    match stored with
    | some st =>
      if isRedisAvailable s0.redis then
        (st.messageCount, true, sendEv ws (.reconnection st.messageCount now))
      else (0, false, sendEv ws (.welcome 0 now))
    | none => (0, false, sendEv ws (.welcome 0 now))
  let messageCount := branch.1
  let isReconnection := branch.2.1
  let s1 := { s0 with connectionCounts := mapSet s0.connectionCounts id messageCount }
  let res := storeConnectionState s1.redis now id messageCount
    (.connected now isReconnection)
  let s2 := { s1 with redis := res.1 }
  let hb := startHeartbeat s2
  let s3 := { hb.1 with heartbeatIntervals := mapSet hb.1.heartbeatIntervals id hb.2 }
  let s4 := { s3 with activeConnections := mapSet s3.activeConnections id ws }
  let s5 := { s4 with wsGauge := s4.wsGauge + 1 }
  (s5, [branch.2.2, .storePut id messageCount res.2])

/-- `handleWebSocketMessage`: a disconnect control message only answers with
a `disconnect_ack` carrying the current total; any other message increments
the count, fires a non-blocking store update, replies `message_response`
with the new count, records latency and bumps the message counter. -/
def handleWebSocketMessage (s : ServerState) (now : Nat) (ws : WS)
    (message : JsonVal) : ServerState × List Event :=
  let id := ws.connectionId
  if isDisconnectControl message then
    let total := (mapGet s.connectionCounts id).getD 0
    (s, [sendEv ws (.disconnectAck total "client_requested_disconnect" now)])
  else
    let currentCount := (mapGet s.connectionCounts id).getD 0 + 1
    let s1 := { s with connectionCounts := mapSet s.connectionCounts id currentCount }
    let res := updateConnectionState s1.redis now id currentCount
      (.lastMessage message now)
    let s2 := { s1 with redis := res.1 }
    let s3 := { s2 with wsMessages := s2.wsMessages + 1 }
    (s3, [.storeUpdate id currentCount res.2,
          sendEv ws (.messageResponse currentCount now),
          .metricLatency])

/-- `handleWebSocketClose`: read the final count (default 0), record the
connection duration when a truthy start time exists, best-effort persist the
terminal record with reason `connection_closed`, clear the heartbeat
interval, delete the id from every map, and decrement the gauge. -/
def handleWebSocketClose (s : ServerState) (now : Nat) (ws : WS) :
    ServerState × List Event :=
  let id := ws.connectionId
  let finalCount := (mapGet s.connectionCounts id).getD 0
  let dur : ServerState × List Event :=
    match mapGet s.connectionStartTimes id with
    | some t0 =>
      if t0 != 0 then
        ({ s with connectionStartTimes := mapDel s.connectionStartTimes id },
         [.metricConnDuration (now - t0)])
      else (s, [])
    | none => (s, [])
  let s1 := dur.1
  let res := storeConnectionState s1.redis now id finalCount
    (.disconnected now "connection_closed")
  let s2 := { s1 with redis := res.1 }
  let s3 := clearIntervalS s2 (mapGet s2.heartbeatIntervals id)
  let s4 := { s3 with
      heartbeatIntervals := mapDel s3.heartbeatIntervals id,
      connectionCounts := mapDel s3.connectionCounts id,
      activeConnections := mapDel s3.activeConnections id,
      wsGauge := s3.wsGauge - 1 }
  (s4, dur.2 ++ [.storePut id finalCount res.2])

/-- The `for (const [connectionId, ws] of activeConnections)` loop body of
`cleanupAllConnections`: graceful close, then (finally) clear that
connection's heartbeat interval. -/
def drainConnections (now : Nat) :
    ServerState → List (String × WS) → ServerState × List Event
  | s, [] => (s, [])
  | s, (id, ws) :: rest =>
    let g := gracefullyCloseConnection s now (some id) ws.sendOk "server_shutdown"
    let s1 := clearIntervalS g.1 (mapGet g.1.heartbeatIntervals id)
    let r := drainConnections now s1 rest
    (r.1, g.2 ++ r.2)

/-- `cleanupAllConnections`: drain every registered connection, then clear
all four tracking maps. -/
def cleanupAllConnections (s : ServerState) (now : Nat) :
    ServerState × List Event :=
  let d := drainConnections now s s.activeConnections
  ({ d.1 with
      activeConnections := [],
      heartbeatIntervals := [],
      connectionCounts := [],
      connectionStartTimes := [] }, d.2)

/-- Process-level state around the server: readiness flags (health.ts),
whether the shutdown-duration gauge was set, and the scheduled or immediate
process exit. -/
structure World where
  ready : Bool
  shuttingDown : Bool
  server : ServerState
  shutdownTimeRecorded : Bool
  exitScheduled : Option (Nat × Nat)

/-- `gracefulShutdown` (shutdown.ts): flip the flags, then (in a try block)
drain all connections, close Redis, record the shutdown duration and
schedule `process.exit(0)` after 10000 ms.  `stepThrows` abstracts an
exception escaping the try block, whose catch calls `process.exit(1)`. -/
def gracefulShutdown (w : World) (now : Nat) (stepThrows : Bool) :
    World × List Event :=
  let w0 := { w with shuttingDown := true, ready := false }
  let pre : List Event := [.shuttingDownSet true, .readySet false]
  if stepThrows then
    (w0, pre ++ [.exitNow 1])
  else
    let c := cleanupAllConnections w0.server now
    let s1 := { c.1 with redis := closeRedis c.1.redis }
    let w1 := { w0 with
        server := s1,
        shutdownTimeRecorded := true,
        exitScheduled := some (10000, 0) }
    (w1, pre ++ c.2 ++ [.redisClosedEv, .shutdownRecorded, .scheduledExit 10000 0])

/-! ### Association-list lemmas -/

theorem mapGet_mapSet_self {α : Type} (m : List (String × α)) (k : String) (v : α) :
    mapGet (mapSet m k v) k = some v := by
  induction m with
  | nil => simp [mapSet, mapGet]
  | cons p rest ih =>
    by_cases h : p.1 = k
    · simp [mapSet, mapGet, h]
    · simp [mapSet, mapGet, h, ih]

theorem mapGet_mapSet_ne {α : Type} (m : List (String × α)) (k k' : String) (v : α)
    (h : k' ≠ k) : mapGet (mapSet m k v) k' = mapGet m k' := by
  induction m with
  | nil =>
    have hk : ¬ (k = k') := fun hh => h hh.symm
    simp [mapSet, mapGet, hk]
  | cons p rest ih =>
    by_cases hp : p.1 = k
    · subst hp
      have hq : ¬ (p.1 = k') := fun hh => h hh.symm
      simp [mapSet, mapGet, hq]
    · by_cases hq : p.1 = k'
      · simp [mapSet, mapGet, hp, hq, h]
      · simp [mapSet, mapGet, hp, hq, ih]

theorem mapGet_mapDel_self {α : Type} (m : List (String × α)) (k : String) :
    mapGet (mapDel m k) k = none := by
  induction m with
  | nil => simp [mapDel, mapGet]
  | cons p rest ih =>
    by_cases h : p.1 = k
    · have hb : (p.1 != k) = false := by simp [h]
      simpa [mapDel, List.filter_cons, hb] using ih
    · have hb : (p.1 != k) = true := by simp [h]
      simpa [mapDel, List.filter_cons, hb, mapGet, h] using ih

theorem mapGet_mapDel_ne {α : Type} (m : List (String × α)) (k k' : String)
    (h : k' ≠ k) : mapGet (mapDel m k) k' = mapGet m k' := by
  induction m with
  | nil => simp [mapDel, mapGet]
  | cons p rest ih =>
    by_cases hp : p.1 = k
    · have hb : (p.1 != k) = false := by simp [hp]
      have hq : ¬ (p.1 = k') := by
        rw [hp]
        exact fun hh => h hh.symm
      calc mapGet (mapDel (p :: rest) k) k'
          = mapGet (mapDel rest k) k' := by simp [mapDel, List.filter_cons, hb]
        _ = mapGet rest k' := ih
        _ = mapGet (p :: rest) k' := by simp [mapGet, hq]
    · have hb : (p.1 != k) = true := by simp [hp]
      by_cases hq : p.1 = k'
      · simp [mapDel, List.filter_cons, hb, mapGet, hq, h]
      · calc mapGet (mapDel (p :: rest) k) k'
            = mapGet (mapDel rest k) k' := by
              simp [mapDel, List.filter_cons, hb, mapGet, hq]
          _ = mapGet rest k' := ih
          _ = mapGet (p :: rest) k' := by simp [mapGet, hq]

theorem mapDel_of_absent {α : Type} (m : List (String × α)) (k : String)
    (h : mapGet m k = none) : mapDel m k = m := by
  induction m with
  | nil => simp [mapDel]
  | cons p rest ih =>
    by_cases hp : p.1 = k
    · exfalso
      simp [mapGet, hp] at h
    · have hb : (p.1 != k) = true := by simp [hp]
      have h' : mapGet rest k = none := by simpa [mapGet, hp] using h
      simpa [mapDel, List.filter_cons, hb] using ih h'

theorem mem_keys_mapSet {α : Type} (m : List (String × α)) (k k' : String) (v : α) :
    k' ∈ (mapSet m k v).map Prod.fst → k' ∈ m.map Prod.fst ∨ k' = k := by
  induction m with
  | nil =>
    intro h
    simp [mapSet] at h
    exact Or.inr h
  | cons p rest ih =>
    intro h
    by_cases hp : p.1 = k
    · simp only [mapSet, beq_iff_eq, hp, if_true, List.map_cons, List.mem_cons] at h
      rcases h with h1 | h2
      · exact Or.inr h1
      · refine Or.inl ?_
        simp only [List.map_cons, List.mem_cons]
        exact Or.inr h2
    · simp only [mapSet, beq_iff_eq, hp, if_false, List.map_cons, List.mem_cons] at h
      rcases h with h1 | h2
      · exact Or.inl (by simp [h1])
      · rcases ih h2 with ha | hb
        · refine Or.inl ?_
          simp only [List.map_cons, List.mem_cons]
          exact Or.inr ha
        · exact Or.inr hb

theorem keys_nodup_mapSet {α : Type} (m : List (String × α)) (k : String) (v : α) :
    (m.map Prod.fst).Nodup → ((mapSet m k v).map Prod.fst).Nodup := by
  induction m with
  | nil =>
    intro _
    simp [mapSet]
  | cons p rest ih =>
    intro h
    simp only [List.map_cons, List.nodup_cons] at h
    by_cases hp : p.1 = k
    · subst hp
      simp only [mapSet, beq_self_eq_true, if_true, List.map_cons, List.nodup_cons]
      exact ⟨h.1, h.2⟩
    · simp only [mapSet, beq_iff_eq, hp, if_false, List.map_cons, List.nodup_cons]
      refine ⟨?_, ih h.2⟩
      intro hmem
      rcases mem_keys_mapSet rest k p.1 v hmem with ha | hb
      · exact h.1 ha
      · exact hp hb

/-! ### Trace helpers and sequencing -/

/-- The messages actually delivered to the client, in order. -/
def sentOf : List Event → List OutMessage :=
  List.filterMap (fun e => match e with | .sent m => some m | _ => none)

/-- The first message delivered to the client. -/
def firstSent (evs : List Event) : Option OutMessage :=
  (sentOf evs).head?

/-- Deliver a sequence of inbound messages to `handleWebSocketMessage`,
threading the state and concatenating the traces. -/
def runMessages (now : Nat) (ws : WS) :
    ServerState → List JsonVal → ServerState × List Event
  | s, [] => (s, [])
  | s, m :: rest =>
    let r1 := handleWebSocketMessage s now ws m
    let r2 := runMessages now ws r1.1 rest
    (r2.1, r1.2 ++ r2.2)

/-! ### Redis facade lemmas -/

theorem storeConnectionState_flags (r : RedisState) (now : Nat) (id : String)
    (c : Nat) (meta : Metadata) :
    (storeConnectionState r now id c meta).1.available = r.available ∧
    (storeConnectionState r now id c meta).1.opFails = r.opFails := by
  unfold storeConnectionState
  split_ifs <;> exact ⟨rfl, rfl⟩

theorem updateConnectionState_flags (r : RedisState) (now : Nat) (id : String)
    (c : Nat) (meta : Metadata) :
    (updateConnectionState r now id c meta).1.available = r.available ∧
    (updateConnectionState r now id c meta).1.opFails = r.opFails := by
  unfold updateConnectionState
  split_ifs with h1 h2
  · exact ⟨rfl, rfl⟩
  · exact ⟨rfl, rfl⟩
  · cases hm : mapGet r.kv (redisKey id) with
    | none => exact storeConnectionState_flags r now id c meta
    | some p =>
      obtain ⟨expiry, st⟩ := p
      by_cases hexp : now < expiry
      · simp [hexp]
      · simp only [hexp, if_false]
        exact storeConnectionState_flags r now id c meta

theorem storeConnectionState_success (r : RedisState) (now : Nat) (id : String)
    (c : Nat) (meta : Metadata) (ha : r.available = true) (hf : r.opFails = false) :
    (storeConnectionState r now id c meta).2 = true ∧
    (storeConnectionState r now id c meta).1.kv =
      mapSet r.kv (redisKey id)
        (now + REDIS_RECONNECT_TTL * 1000, ⟨id, c, now, meta⟩) := by
  simp [storeConnectionState, isRedisAvailable, ha, hf]

theorem getConnectionState_after_store (r : RedisState) (now : Nat) (id : String)
    (c : Nat) (meta : Metadata) (ha : r.available = true) (hf : r.opFails = false) :
    getConnectionState (storeConnectionState r now id c meta).1 now id =
      some ⟨id, c, now, meta⟩ := by
  have hs := storeConnectionState_success r now id c meta ha hf
  have hfl := storeConnectionState_flags r now id c meta
  simp only [getConnectionState, isRedisAvailable, hfl.1, ha, hfl.2, hf,
    Bool.not_true, Bool.false_eq_true, if_false]
  rw [hs.2, mapGet_mapSet_self]
  have hlt : now < now + REDIS_RECONNECT_TTL * 1000 := by
    simp [REDIS_RECONNECT_TTL]
  simp [hlt]

/-! ### Concrete fixtures used by the witnesses and counterexamples -/

/-- An empty, unavailable Redis facade. -/
def redisDown : RedisState := ⟨false, false, []⟩

/-- An empty, reachable Redis facade. -/
def redisUp : RedisState := ⟨true, false, []⟩

/-- A fresh server with the store down. -/
def stateDown : ServerState := ⟨[], [], [], [], [], 0, 0, 0, redisDown⟩

/-- A fresh server with the store reachable. -/
def stateUp : ServerState := ⟨[], [], [], [], [], 0, 0, 0, redisUp⟩

/-- A transport handle for connection `c1` whose sends succeed. -/
def wsC1 : WS := ⟨"c1", 1, true⟩

/-- A second transport handle for the same connection id `c1`. -/
def wsC1b : WS := ⟨"c1", 2, true⟩

/-! ### Handler shape lemmas -/

/-- The message count `handleWebSocketOpen` seeds the session with: the
stored count on (record found && store available), else 0. -/
def openSeed (s : ServerState) (now : Nat) (id : String) : Nat :=
  match getConnectionState s.redis now id with
  | some st => if isRedisAvailable s.redis then st.messageCount else 0
  | none => 0

theorem handleWebSocketClose_shape (s : ServerState) (now : Nat) (ws : WS) :
    (handleWebSocketClose s now ws).1.connectionCounts =
      mapDel s.connectionCounts ws.connectionId ∧
    (handleWebSocketClose s now ws).1.activeConnections =
      mapDel s.activeConnections ws.connectionId ∧
    (handleWebSocketClose s now ws).1.heartbeatIntervals =
      mapDel s.heartbeatIntervals ws.connectionId ∧
    (handleWebSocketClose s now ws).1.wsGauge = s.wsGauge - 1 ∧
    (handleWebSocketClose s now ws).1.nextTimer = s.nextTimer ∧
    (handleWebSocketClose s now ws).1.wsMessages = s.wsMessages ∧
    (handleWebSocketClose s now ws).1.redis =
      (storeConnectionState s.redis now ws.connectionId
        ((mapGet s.connectionCounts ws.connectionId).getD 0)
        (Metadata.disconnected now "connection_closed")).1 ∧
    (handleWebSocketClose s now ws).1.timers =
      (clearIntervalS s (mapGet s.heartbeatIntervals ws.connectionId)).timers ∧
    (handleWebSocketClose s now ws).1.connectionStartTimes =
      (match mapGet s.connectionStartTimes ws.connectionId with
        | some t0 =>
          if t0 != 0 then mapDel s.connectionStartTimes ws.connectionId
          else s.connectionStartTimes
        | none => s.connectionStartTimes) ∧
    (handleWebSocketClose s now ws).2 =
      (match mapGet s.connectionStartTimes ws.connectionId with
        | some t0 => if t0 != 0 then [Event.metricConnDuration (now - t0)] else []
        | none => []) ++
      [.storePut ws.connectionId
        ((mapGet s.connectionCounts ws.connectionId).getD 0)
        (storeConnectionState s.redis now ws.connectionId
          ((mapGet s.connectionCounts ws.connectionId).getD 0)
          (Metadata.disconnected now "connection_closed")).2] := by
  rcases hst : mapGet s.connectionStartTimes ws.connectionId with _ | t0 <;>
    rcases hhb : mapGet s.heartbeatIntervals ws.connectionId with _ | h0
  · simp [handleWebSocketClose, hst, hhb, clearIntervalS]
  · simp [handleWebSocketClose, hst, hhb, clearIntervalS]
  · by_cases ht0 : t0 = 0 <;>
      simp [handleWebSocketClose, hst, hhb, ht0, clearIntervalS]
  · by_cases ht0 : t0 = 0 <;>
      simp [handleWebSocketClose, hst, hhb, ht0, clearIntervalS]

theorem handleWebSocketOpen_shape (s : ServerState) (now : Nat) (ws : WS) :
    (handleWebSocketOpen s now ws).1.connectionCounts =
      mapSet s.connectionCounts ws.connectionId (openSeed s now ws.connectionId) ∧
    (handleWebSocketOpen s now ws).1.activeConnections =
      mapSet s.activeConnections ws.connectionId ws ∧
    (handleWebSocketOpen s now ws).1.heartbeatIntervals =
      mapSet s.heartbeatIntervals ws.connectionId s.nextTimer ∧
    (handleWebSocketOpen s now ws).1.connectionStartTimes =
      mapSet s.connectionStartTimes ws.connectionId now ∧
    (handleWebSocketOpen s now ws).1.wsGauge = s.wsGauge + 1 ∧
    (handleWebSocketOpen s now ws).1.nextTimer = s.nextTimer + 1 ∧
    (handleWebSocketOpen s now ws).1.timers = ⟨s.nextTimer, 30000⟩ :: s.timers ∧
    (handleWebSocketOpen s now ws).1.wsMessages = s.wsMessages ∧
    (handleWebSocketOpen s now ws).2 =
      [sendEv ws (match getConnectionState s.redis now ws.connectionId with
        | some st =>
          if isRedisAvailable s.redis then .reconnection st.messageCount now
          else .welcome 0 now
        | none => .welcome 0 now),
       .storePut ws.connectionId (openSeed s now ws.connectionId)
         (storeConnectionState s.redis now ws.connectionId
           (openSeed s now ws.connectionId)
           (Metadata.connected now
             (match getConnectionState s.redis now ws.connectionId with
              | some _ => isRedisAvailable s.redis
              | none => false))).2] := by
  rcases hget : getConnectionState s.redis now ws.connectionId with _ | st
  · simp [handleWebSocketOpen, hget, openSeed, startHeartbeat]
  · by_cases hav : isRedisAvailable s.redis <;>
      simp [handleWebSocketOpen, hget, hav, openSeed, startHeartbeat]

/-! ### Claims -/

/-- Claim C3: for every connection id and every session state, processing a
control message (a structured object carrying a `disconnect` marker) leaves
the whole server state -- message count, store, metrics, registry --
unchanged, and the trace is exactly one `disconnect_ack` carrying the
current total and reason `client_requested_disconnect`. -/
theorem claim_C3 (s : ServerState) (now : Nat) (ws : WS) (message : JsonVal)
    (hctrl : isDisconnectControl message = true) (hsend : ws.sendOk = true) :
    handleWebSocketMessage s now ws message =
      (s, [.sent (.disconnectAck
            ((mapGet s.connectionCounts ws.connectionId).getD 0)
            "client_requested_disconnect" now)]) := by
  simp [handleWebSocketMessage, hctrl, sendEv, hsend]

/-- Witness for C3: a concrete control message on a fresh server is answered
with `disconnect_ack` total 0 and changes nothing. -/
theorem claim_C3_witness :
    handleWebSocketMessage stateDown 5 wsC1
        (JsonVal.obj [("disconnect", JsonVal.bool true)]) =
      (stateDown,
       [.sent (.disconnectAck 0 "client_requested_disconnect" 5)]) := by
  exact claim_C3 stateDown 5 wsC1 (JsonVal.obj [("disconnect", JsonVal.bool true)])
    (by rfl) (by rfl)

/-- Claim C5: whenever the store is unreachable, each of the four store
operations returns its no-op failure value (`none` / `false`) without side
effects, and open, message and close still produce their normal default
responses (welcome with count 0, `message_response` with the incremented
count, full close cleanup). -/
theorem claim_C5 (r : RedisState) (now : Nat) (id : String) (c : Nat)
    (meta : Metadata) (s : ServerState) (ws : WS) (message : JsonVal)
    (hr : isRedisAvailable r = false) (hsr : isRedisAvailable s.redis = false)
    (hsend : ws.sendOk = true) (hmsg : isDisconnectControl message = false) :
    (getConnectionState r now id = none ∧
     storeConnectionState r now id c meta = (r, false) ∧
     updateConnectionState r now id c meta = (r, false) ∧
     removeConnectionState r now id = (r, false)) ∧
    (firstSent (handleWebSocketOpen s now ws).2 = some (.welcome 0 now) ∧
     mapGet (handleWebSocketOpen s now ws).1.connectionCounts ws.connectionId =
       some 0) ∧
    (sentOf (handleWebSocketMessage s now ws message).2 =
       [.messageResponse ((mapGet s.connectionCounts ws.connectionId).getD 0 + 1) now] ∧
     mapGet (handleWebSocketMessage s now ws message).1.connectionCounts
         ws.connectionId =
       some ((mapGet s.connectionCounts ws.connectionId).getD 0 + 1)) ∧
    (mapGet (handleWebSocketClose s now ws).1.connectionCounts ws.connectionId =
       none ∧
     mapGet (handleWebSocketClose s now ws).1.activeConnections ws.connectionId =
       none ∧
     mapGet (handleWebSocketClose s now ws).1.heartbeatIntervals ws.connectionId =
       none ∧
     (handleWebSocketClose s now ws).1.wsGauge = s.wsGauge - 1) := by
  refine ⟨⟨?_, ?_, ?_, ?_⟩, ⟨?_, ?_⟩, ⟨?_, ?_⟩, ⟨?_, ?_, ?_, ?_⟩⟩
  · simp [getConnectionState, hr]
  · simp [storeConnectionState, hr]
  · simp [updateConnectionState, hr]
  · simp [removeConnectionState, hr]
  · simp [handleWebSocketOpen, getConnectionState, hsr, firstSent, sentOf,
      sendEv, hsend]
  · simp [handleWebSocketOpen, getConnectionState, hsr, startHeartbeat,
      mapGet_mapSet_self]
  · simp [handleWebSocketMessage, hmsg, sentOf, sendEv, hsend]
  · simp [handleWebSocketMessage, hmsg, mapGet_mapSet_self]
  · rw [(handleWebSocketClose_shape s now ws).1, mapGet_mapDel_self]
  · rw [(handleWebSocketClose_shape s now ws).2.1, mapGet_mapDel_self]
  · rw [(handleWebSocketClose_shape s now ws).2.2.1, mapGet_mapDel_self]
  · exact (handleWebSocketClose_shape s now ws).2.2.2.1

/-- Witness for C5: with the store down, a fresh open is welcomed with
count 0, a plain message is answered with count 1, and a close removes the
session and decrements the gauge. -/
theorem claim_C5_witness :
    getConnectionState redisDown 7 "c1" = none ∧
    firstSent (handleWebSocketOpen stateDown 7 wsC1).2 = some (.welcome 0 7) ∧
    sentOf (handleWebSocketMessage stateDown 7 wsC1 (JsonVal.str "hi")).2 =
      [.messageResponse 1 7] ∧
    mapGet (handleWebSocketClose stateDown 7 wsC1).1.connectionCounts "c1" =
      none ∧
    (handleWebSocketClose stateDown 7 wsC1).1.wsGauge = -1 := by
  have h := claim_C5 redisDown 7 "c1" 3 (Metadata.connected 0 false) stateDown
    wsC1 (JsonVal.str "hi") rfl rfl rfl rfl
  exact ⟨h.1.1, h.2.1.1, h.2.2.1.1, h.2.2.2.1, h.2.2.2.2.2.2⟩

/-- Claim C2: the first outbound message of an open is decided by the store
lookup: a stored record with count C while the store is reachable yields a
`reconnection` notice with `previousCount = C` and seeds the session count
from C; in every other case (no record, expired record, or store down --
all of which make `getConnectionState` return `none`) it yields a `welcome`
notice with count 0 and the session count starts at 0, whatever sessions the
id had before. -/
theorem claim_C2 (s : ServerState) (now : Nat) (ws : WS)
    (hsend : ws.sendOk = true) :
    (∀ st : ConnectionState,
      getConnectionState s.redis now ws.connectionId = some st →
      isRedisAvailable s.redis = true →
      firstSent (handleWebSocketOpen s now ws).2 =
          some (.reconnection st.messageCount now) ∧
      mapGet (handleWebSocketOpen s now ws).1.connectionCounts ws.connectionId =
          some st.messageCount) ∧
    (getConnectionState s.redis now ws.connectionId = none →
      firstSent (handleWebSocketOpen s now ws).2 = some (.welcome 0 now) ∧
      mapGet (handleWebSocketOpen s now ws).1.connectionCounts ws.connectionId =
          some 0) := by
  obtain ⟨hc, -, -, -, -, -, -, -, hev⟩ := handleWebSocketOpen_shape s now ws
  constructor
  · intro st hget hav
    constructor
    · rw [hev]
      simp [firstSent, sentOf, hget, hav, sendEv, hsend]
    · rw [hc]
      simp [openSeed, hget, hav, mapGet_mapSet_self]
  · intro hget
    constructor
    · rw [hev]
      simp [firstSent, sentOf, hget, sendEv, hsend]
    · rw [hc]
      simp [openSeed, hget, mapGet_mapSet_self]

/-- A reachable store already holding a record for `c1` with count 4. -/
def redisRec : RedisState :=
  ⟨true, false, [(redisKey "c1", (1000000, ⟨"c1", 4, 0, .connected 0 false⟩))]⟩

/-- A fresh server whose store holds a reconnectable record for `c1`. -/
def stateRec : ServerState := ⟨[], [], [], [], [], 0, 0, 0, redisRec⟩

/-- Witness for C2: opening `c1` against a stored count of 4 yields
`reconnection` with previousCount 4; opening against a down store yields
`welcome` with count 0. -/
theorem claim_C2_witness :
    firstSent (handleWebSocketOpen stateRec 5 wsC1).2 =
      some (.reconnection 4 5) ∧
    mapGet (handleWebSocketOpen stateRec 5 wsC1).1.connectionCounts "c1" =
      some 4 ∧
    firstSent (handleWebSocketOpen stateDown 5 wsC1).2 = some (.welcome 0 5) := by
  have h1 := (claim_C2 stateRec 5 wsC1 rfl).1 ⟨"c1", 4, 0, .connected 0 false⟩
    (by rfl) rfl
  have h2 := (claim_C2 stateDown 5 wsC1 rfl).2 rfl
  exact ⟨h1.1, h1.2, h2.1⟩

/-- Claim C4: close removes the id from all four registry maps, cancels the
heartbeat handle, decrements the connection gauge, and best-effort persists
a terminal record with reason `connection_closed` and the final count; the
cleanup happens whatever the store does (the conclusions about the maps,
timer and gauge hold for every store state, reachable, down, or throwing).
The start-time hypothesis only excludes the JavaScript-truthiness corner
`Date.now() = 0`, which cannot occur. -/
theorem claim_C4 (s : ServerState) (now : Nat) (ws : WS)
    (hstart : mapGet s.connectionStartTimes ws.connectionId ≠ some 0) :
    mapGet (handleWebSocketClose s now ws).1.connectionCounts ws.connectionId =
      none ∧
    mapGet (handleWebSocketClose s now ws).1.heartbeatIntervals ws.connectionId =
      none ∧
    mapGet (handleWebSocketClose s now ws).1.activeConnections ws.connectionId =
      none ∧
    mapGet (handleWebSocketClose s now ws).1.connectionStartTimes ws.connectionId =
      none ∧
    (∀ h0, mapGet s.heartbeatIntervals ws.connectionId = some h0 →
      ∀ t ∈ (handleWebSocketClose s now ws).1.timers, t.handle ≠ h0) ∧
    (handleWebSocketClose s now ws).1.wsGauge = s.wsGauge - 1 ∧
    (s.redis.available = true → s.redis.opFails = false →
      getConnectionState (handleWebSocketClose s now ws).1.redis now
          ws.connectionId =
        some ⟨ws.connectionId, (mapGet s.connectionCounts ws.connectionId).getD 0,
              now, .disconnected now "connection_closed"⟩) ∧
    (isRedisAvailable s.redis = false →
      (handleWebSocketClose s now ws).1.redis = s.redis) := by
  obtain ⟨hc, ha, hh, hg, -, -, hr, ht, hstt, -⟩ :=
    handleWebSocketClose_shape s now ws
  refine ⟨?_, ?_, ?_, ?_, ?_, hg, ?_, ?_⟩
  · rw [hc, mapGet_mapDel_self]
  · rw [hh, mapGet_mapDel_self]
  · rw [ha, mapGet_mapDel_self]
  · rw [hstt]
    rcases hst : mapGet s.connectionStartTimes ws.connectionId with _ | t0
    · simpa using hst
    · have ht0 : t0 ≠ 0 := by
        intro hz
        exact hstart (by rw [hst, hz])
      simp only [ht0, bne_iff_ne, ne_eq, not_false_iff, if_true]
      exact mapGet_mapDel_self _ _
  · intro h0 hh0 t htmem
    rw [ht] at htmem
    rw [hh0] at htmem
    simp only [clearIntervalS, List.mem_filter] at htmem
    simpa [bne_iff_ne] using htmem.2
  · intro hav hop
    rw [hr]
    exact getConnectionState_after_store s.redis now ws.connectionId _ _ hav hop
  · intro hav
    rw [hr]
    simp [storeConnectionState, hav]

/-- Witness for C4: opening `c1` against the reachable empty store at time 5
then closing at time 6 leaves no trace of `c1` in the registry, restores the
gauge, and persists `{messageCount: 0, reason: connection_closed}`. -/
theorem claim_C4_witness :
    mapGet (handleWebSocketClose (handleWebSocketOpen stateUp 5 wsC1).1 6
        wsC1).1.activeConnections "c1" = none ∧
    (handleWebSocketClose (handleWebSocketOpen stateUp 5 wsC1).1 6
        wsC1).1.wsGauge = 0 ∧
    getConnectionState (handleWebSocketClose (handleWebSocketOpen stateUp 5
        wsC1).1 6 wsC1).1.redis 6 "c1" =
      some ⟨"c1", 0, 6, .disconnected 6 "connection_closed"⟩ := by
  have h := claim_C4 (handleWebSocketOpen stateUp 5 wsC1).1 6 wsC1 (by decide)
  exact ⟨h.2.2.1, h.2.2.2.2.2.1, h.2.2.2.2.2.2.1 rfl rfl⟩

/-- Claim C10: a close for an id absent from every map (never opened, or
already closed) still runs to completion: the final count defaults to 0, the
map removals are no-ops, and the gauge is decremented unconditionally --
so when the gauge matched the number of attached sessions before, it sits
one below it afterwards. -/
theorem claim_C10 (s : ServerState) (now : Nat) (ws : WS)
    (hc : mapGet s.connectionCounts ws.connectionId = none)
    (hh : mapGet s.heartbeatIntervals ws.connectionId = none)
    (ha : mapGet s.activeConnections ws.connectionId = none)
    (ht : mapGet s.connectionStartTimes ws.connectionId = none) :
    (handleWebSocketClose s now ws).1.connectionCounts = s.connectionCounts ∧
    (handleWebSocketClose s now ws).1.heartbeatIntervals = s.heartbeatIntervals ∧
    (handleWebSocketClose s now ws).1.activeConnections = s.activeConnections ∧
    (handleWebSocketClose s now ws).1.connectionStartTimes =
      s.connectionStartTimes ∧
    (handleWebSocketClose s now ws).1.timers = s.timers ∧
    (handleWebSocketClose s now ws).1.wsGauge = s.wsGauge - 1 ∧
    (handleWebSocketClose s now ws).2 =
      [.storePut ws.connectionId 0
        (storeConnectionState s.redis now ws.connectionId 0
          (.disconnected now "connection_closed")).2] ∧
    (s.wsGauge = (s.activeConnections.length : Int) →
      (handleWebSocketClose s now ws).1.wsGauge =
        ((handleWebSocketClose s now ws).1.activeConnections.length : Int) - 1) := by
  obtain ⟨hcc, hac, hhc, hg, -, -, -, htm, hstt, hevs⟩ :=
    handleWebSocketClose_shape s now ws
  have hcounts : (handleWebSocketClose s now ws).1.connectionCounts =
      s.connectionCounts := by
    rw [hcc]
    exact mapDel_of_absent _ _ hc
  have hactive : (handleWebSocketClose s now ws).1.activeConnections =
      s.activeConnections := by
    rw [hac]
    exact mapDel_of_absent _ _ ha
  refine ⟨hcounts, ?_, hactive, ?_, ?_, hg, ?_, ?_⟩
  · rw [hhc]
    exact mapDel_of_absent _ _ hh
  · rw [hstt, ht]
  · rw [htm, hh]
    simp [clearIntervalS]
  · rw [hevs, ht, hc]
    simp
  · intro hbal
    rw [hg, hactive, hbal]

/-- Witness for C10: a close for `c1` on a fresh server (no session ever
opened) leaves the maps untouched, emits a count-0 store put, and drives the
gauge to -1 while zero sessions are attached. -/
theorem claim_C10_witness :
    (handleWebSocketClose stateDown 9 wsC1).1.activeConnections = [] ∧
    (handleWebSocketClose stateDown 9 wsC1).1.wsGauge = -1 ∧
    (handleWebSocketClose stateDown 9 wsC1).2 = [.storePut "c1" 0 false] := by
  have h := claim_C10 stateDown 9 wsC1 rfl rfl rfl rfl
  exact ⟨h.2.2.1, h.2.2.2.2.2.1, h.2.2.2.2.2.2.1⟩

/-- Claim C6: graceful close persists the terminal record tagged with the
supplied reason first, then sends the `shutdown` notice (total, reason,
`bye: true`) and schedules the forced transport close with going-away code
1001 after the 100 ms grace delay; if the send throws it proceeds directly
to the forced 1001 close, returning normally either way. -/
theorem claim_C6 (s : ServerState) (now : Nat) (connectionId : String)
    (sendOk : Bool) (reason : String) :
    (∃ ok, (gracefullyCloseConnection s now (some connectionId) sendOk
        reason).2.head? =
      some (.storePut connectionId
        ((mapGet s.connectionCounts connectionId).getD 0) ok)) ∧
    (s.redis.available = true → s.redis.opFails = false →
      getConnectionState
          (gracefullyCloseConnection s now (some connectionId) sendOk
            reason).1.redis now connectionId =
        some ⟨connectionId, (mapGet s.connectionCounts connectionId).getD 0,
              now, .disconnected now reason⟩) ∧
    (sendOk = true →
      (gracefullyCloseConnection s now (some connectionId) sendOk reason).2 =
        [.storePut connectionId ((mapGet s.connectionCounts connectionId).getD 0)
           (storeConnectionState s.redis now connectionId
             ((mapGet s.connectionCounts connectionId).getD 0)
             (.disconnected now reason)).2,
         .sent (.shutdown ((mapGet s.connectionCounts connectionId).getD 0)
           reason true now),
         .scheduledRawClose 100 1001 "Normal closure"]) ∧
    (sendOk = false →
      (gracefullyCloseConnection s now (some connectionId) sendOk reason).2 =
        [.storePut connectionId ((mapGet s.connectionCounts connectionId).getD 0)
           (storeConnectionState s.redis now connectionId
             ((mapGet s.connectionCounts connectionId).getD 0)
             (.disconnected now reason)).2,
         .sendFailed (.shutdown ((mapGet s.connectionCounts connectionId).getD 0)
           reason true now),
         .rawClose 1001 "Server error"]) := by
  refine ⟨?_, ?_, ?_, ?_⟩
  · refine ⟨(storeConnectionState s.redis now connectionId
      ((mapGet s.connectionCounts connectionId).getD 0)
      (.disconnected now reason)).2, ?_⟩
    cases sendOk <;> simp [gracefullyCloseConnection]
  · intro hav hop
    have hred : (gracefullyCloseConnection s now (some connectionId) sendOk
        reason).1.redis =
      (storeConnectionState s.redis now connectionId
        ((mapGet s.connectionCounts connectionId).getD 0)
        (.disconnected now reason)).1 := by
      cases sendOk <;> simp [gracefullyCloseConnection]
    rw [hred]
    exact getConnectionState_after_store s.redis now connectionId _ _ hav hop
  · intro hok
    subst hok
    simp [gracefullyCloseConnection]
  · intro hok
    subst hok
    simp [gracefullyCloseConnection]

/-- Witness for C6: closing the open session `c1` on a reachable store, once
with a working transport and once with a throwing one. -/
theorem claim_C6_witness :
    (gracefullyCloseConnection stateUp 5 (some "c1") true "server_shutdown").2 =
      [.storePut "c1" 0 true, .sent (.shutdown 0 "server_shutdown" true 5),
       .scheduledRawClose 100 1001 "Normal closure"] ∧
    (gracefullyCloseConnection stateUp 5 (some "c1") false
        "server_shutdown").2 =
      [.storePut "c1" 0 true, .sendFailed (.shutdown 0 "server_shutdown" true 5),
       .rawClose 1001 "Server error"] ∧
    getConnectionState
        (gracefullyCloseConnection stateUp 5 (some "c1") true
          "server_shutdown").1.redis 5 "c1" =
      some ⟨"c1", 0, 5, .disconnected 5 "server_shutdown"⟩ := by
  have h1 := claim_C6 stateUp 5 "c1" true "server_shutdown"
  have h2 := claim_C6 stateUp 5 "c1" false "server_shutdown"
  exact ⟨h1.2.2.1 rfl, h2.2.2.2 rfl, h1.2.1 rfl rfl⟩

/-- Counterexample to C8 as stated: with `c1` already present in the
Connection Registry (holding handle wsC1), a second open under the same id
does not fail -- it succeeds and silently replaces the entry with wsC1b. -/
theorem claim_C8_counterexample :
    mapGet (handleWebSocketOpen stateDown 5 wsC1).1.activeConnections "c1" =
      some wsC1 ∧
    mapGet (handleWebSocketOpen (handleWebSocketOpen stateDown 5 wsC1).1 6
        wsC1b).1.activeConnections "c1" = some wsC1b ∧
    wsC1b ≠ wsC1 := by
  refine ⟨rfl, rfl, by decide⟩

/-- Claim C8 (amended): registering a session under an id already present
succeeds and replaces the existing entry (JavaScript `Map.set` semantics),
so the Registry still holds at most one session per id -- key uniqueness is
preserved -- but an existing entry is silently overwritten rather than the
second open failing. -/
theorem claim_C8 (s : ServerState) (now : Nat) (ws : WS)
    (h : (s.activeConnections.map Prod.fst).Nodup) :
    mapGet (handleWebSocketOpen s now ws).1.activeConnections ws.connectionId =
      some ws ∧
    ((handleWebSocketOpen s now ws).1.activeConnections.map Prod.fst).Nodup := by
  obtain ⟨-, hactive, -⟩ := handleWebSocketOpen_shape s now ws
  constructor
  · rw [hactive]
    exact mapGet_mapSet_self _ _ _
  · rw [hactive]
    exact keys_nodup_mapSet _ _ _ h

/-- Witness for C8 (amended): the double open of the counterexample keeps
exactly one `c1` entry, now holding the second handle. -/
theorem claim_C8_witness :
    mapGet (handleWebSocketOpen (handleWebSocketOpen stateDown 5 wsC1).1 6
        wsC1b).1.activeConnections "c1" = some wsC1b ∧
    (((handleWebSocketOpen (handleWebSocketOpen stateDown 5 wsC1).1 6
        wsC1b).1.activeConnections.map Prod.fst).Nodup) := by
  exact claim_C8 (handleWebSocketOpen stateDown 5 wsC1).1 6 wsC1b (by decide)

theorem filter_idem {α : Type} (p : α → Bool) (l : List α) :
    (l.filter p).filter p = l.filter p := by
  induction l with
  | nil => rfl
  | cons a t ih =>
    by_cases h : p a = true
    · simp [List.filter_cons, h, ih]
    · simp only [List.filter_cons, h, if_false]
      exact ih

/-- Claim C9: the heartbeat registered at open has the fixed 30000 ms
period; a heartbeat send failure self-cancels only the interval, touching no
registry map or gauge; after close the session's interval handle is gone
from the live timers so a late fire is a no-op; and double cancellation of a
handle is a no-op. -/
theorem claim_C9 (s : ServerState) (now : Nat) (ws ws2 : WS)
    (handle h0 : Nat) (hws2 : ws2.sendOk = false)
    (hlive : s.timers.any (fun t => t.handle == handle) = true)
    (hh0 : mapGet s.heartbeatIntervals ws.connectionId = some h0) :
    ((handleWebSocketOpen s now ws).1.timers.head? =
        some ⟨s.nextTimer, 30000⟩ ∧
     mapGet (handleWebSocketOpen s now ws).1.heartbeatIntervals
         ws.connectionId = some s.nextTimer) ∧
    ((∀ t ∈ (heartbeatFire s now handle ws2).1.timers, t.handle ≠ handle) ∧
     (heartbeatFire s now handle ws2).2 = [.sendFailed (.heartbeat now)] ∧
     (heartbeatFire s now handle ws2).1.connectionCounts = s.connectionCounts ∧
     (heartbeatFire s now handle ws2).1.heartbeatIntervals =
       s.heartbeatIntervals ∧
     (heartbeatFire s now handle ws2).1.activeConnections =
       s.activeConnections ∧
     (heartbeatFire s now handle ws2).1.wsGauge = s.wsGauge) ∧
    ((∀ t ∈ (handleWebSocketClose s now ws).1.timers, t.handle ≠ h0) ∧
     heartbeatFire (handleWebSocketClose s now ws).1 now h0 ws =
       ((handleWebSocketClose s now ws).1, [])) ∧
    clearIntervalS (clearIntervalS s (some handle)) (some handle) =
      clearIntervalS s (some handle) := by
  obtain ⟨-, -, hhb, -, -, -, htm, -, -⟩ := handleWebSocketOpen_shape s now ws
  have hclose := handleWebSocketClose_shape s now ws
  have hcloset : (handleWebSocketClose s now ws).1.timers =
      s.timers.filter (fun t => t.handle != h0) := by
    rw [hclose.2.2.2.2.2.2.2.1, hh0]
    rfl
  have hgone : ∀ t ∈ (handleWebSocketClose s now ws).1.timers, t.handle ≠ h0 := by
    intro t htmem
    rw [hcloset] at htmem
    rcases List.mem_filter.mp htmem with ⟨-, hne⟩
    simpa [bne_iff_ne] using hne
  refine ⟨⟨?_, ?_⟩, ⟨?_, ?_, ?_, ?_, ?_, ?_⟩, ⟨hgone, ?_⟩, ?_⟩
  · rw [htm]
    rfl
  · rw [hhb]
    exact mapGet_mapSet_self _ _ _
  · intro t htmem
    simp only [heartbeatFire, hlive, if_true, hws2, Bool.false_eq_true,
      if_false] at htmem
    rcases List.mem_filter.mp htmem with ⟨-, hne⟩
    simpa [bne_iff_ne] using hne
  · simp [heartbeatFire, hlive, hws2]
  · simp [heartbeatFire, hlive, hws2]
  · simp [heartbeatFire, hlive, hws2]
  · simp [heartbeatFire, hlive, hws2]
  · simp [heartbeatFire, hlive, hws2]
  · have hdead : ((handleWebSocketClose s now ws).1.timers.any
        (fun t => t.handle == h0)) = false := by
      rw [List.any_eq_false]
      intro t htmem
      simpa using hgone t htmem
    simp [heartbeatFire, hdead]
  · simp only [clearIntervalS]
    rw [filter_idem]

/-- Witness for C9: the session opened for `c1` gets interval handle 0 with
a 30 s period; a failed heartbeat send on that session self-cancels without
touching the registry; after close a late fire of handle 0 is a no-op. -/
theorem claim_C9_witness :
    (handleWebSocketOpen stateDown 5 wsC1).1.timers.head? =
      some ⟨0, 30000⟩ ∧
    (heartbeatFire (handleWebSocketOpen stateDown 5 wsC1).1 6 0
        ⟨"c1", 3, false⟩).2 = [.sendFailed (.heartbeat 6)] ∧
    (heartbeatFire (handleWebSocketOpen stateDown 5 wsC1).1 6 0
        ⟨"c1", 3, false⟩).1.activeConnections =
      (handleWebSocketOpen stateDown 5 wsC1).1.activeConnections ∧
    heartbeatFire
        (handleWebSocketClose (handleWebSocketOpen stateDown 5 wsC1).1 7
          wsC1).1 8 0 wsC1 =
      ((handleWebSocketClose (handleWebSocketOpen stateDown 5 wsC1).1 7
          wsC1).1, []) := by
  have h := claim_C9 (handleWebSocketOpen stateDown 5 wsC1).1 7 wsC1
    ⟨"c1", 3, false⟩ 0 0 rfl (by decide) rfl
  have h2 := claim_C9 (handleWebSocketOpen stateDown 5 wsC1).1 6 wsC1
    ⟨"c1", 3, false⟩ 0 0 rfl (by decide) rfl
  exact ⟨by rfl, h2.2.1.2.1, h2.2.1.2.2.2.2.1, h.2.2.1.2⟩

/-- The reply sequence a session counting from `c` produces for `n` counted
messages: `message_response` with counts `c+1, c+2, ..., c+n`. -/
def responseList (now : Nat) : Nat → Nat → List OutMessage
  | _, 0 => []
  | c, n + 1 => .messageResponse (c + 1) now :: responseList now (c + 1) n

theorem responseList_eq_range (now : Nat) : ∀ (n c : Nat),
    responseList now c n =
      (List.range n).map (fun i => OutMessage.messageResponse (c + i + 1) now) := by
  intro n
  induction n with
  | zero =>
    intro c
    rfl
  | succ k ih =>
    intro c
    rw [List.range_succ_eq_map]
    simp only [List.map_cons, List.map_map]
    have hhead : responseList now c (k + 1) =
        .messageResponse (c + 1) now :: responseList now (c + 1) k := rfl
    rw [hhead, ih (c + 1)]
    congr 1
    apply List.map_congr_left
    intro i _
    simp only [Function.comp_apply]
    congr 1
    omega

theorem runMessages_play (now : Nat) (ws : WS) : ∀ (msgs : List JsonVal)
    (s : ServerState) (c : Nat), ws.sendOk = true →
    msgs.all (fun m => !(isDisconnectControl m)) = true →
    mapGet s.connectionCounts ws.connectionId = some c →
    mapGet (runMessages now ws s msgs).1.connectionCounts ws.connectionId =
      some (c + msgs.length) ∧
    sentOf (runMessages now ws s msgs).2 = responseList now c msgs.length ∧
    (runMessages now ws s msgs).1.redis.available = s.redis.available ∧
    (runMessages now ws s msgs).1.redis.opFails = s.redis.opFails := by
  intro msgs
  induction msgs with
  | nil =>
    intro s c _ _ hc
    simpa [runMessages, sentOf, responseList] using hc
  | cons m rest ih =>
    intro s c hsend hall hc
    rw [List.all_cons, Bool.and_eq_true] at hall
    have hm : isDisconnectControl m = false := by simpa using hall.1
    have hrest : rest.all (fun m => !(isDisconnectControl m)) = true := hall.2
    have hstep : handleWebSocketMessage s now ws m =
        ({ s with
            connectionCounts := mapSet s.connectionCounts ws.connectionId (c + 1),
            redis := (updateConnectionState s.redis now ws.connectionId (c + 1)
              (.lastMessage m now)).1,
            wsMessages := s.wsMessages + 1 },
         [.storeUpdate ws.connectionId (c + 1)
            (updateConnectionState s.redis now ws.connectionId (c + 1)
              (.lastMessage m now)).2,
          .sent (.messageResponse (c + 1) now),
          .metricLatency]) := by
      simp [handleWebSocketMessage, hm, hc, sendEv, hsend]
    have hflags := updateConnectionState_flags s.redis now ws.connectionId
      (c + 1) (.lastMessage m now)
    have hrec := ih (handleWebSocketMessage s now ws m).1 (c + 1) hsend hrest
      (by rw [hstep]; exact mapGet_mapSet_self _ _ _)
    have hrun : runMessages now ws s (m :: rest) =
        ((runMessages now ws (handleWebSocketMessage s now ws m).1 rest).1,
         (handleWebSocketMessage s now ws m).2 ++
           (runMessages now ws (handleWebSocketMessage s now ws m).1 rest).2) :=
      rfl
    refine ⟨?_, ?_, ?_, ?_⟩
    · rw [hrun]
      have : c + 1 + rest.length = c + (rest.length + 1) := by omega
      simpa [List.length_cons, ← this] using hrec.1
    · rw [hrun]
      simp only [sentOf, List.filterMap_append]
      have h1 : sentOf (handleWebSocketMessage s now ws m).2 =
          [OutMessage.messageResponse (c + 1) now] := by
        rw [hstep]
        simp [sentOf]
      have h2 := hrec.2.1
      simp only [sentOf] at h1 h2
      rw [h1, h2]
      rfl
    · rw [hrun]
      have := hrec.2.2.1
      rw [this, hstep]
      exact hflags.1
    · rw [hrun]
      have := hrec.2.2.2
      rw [this, hstep]
      exact hflags.2

/-- Claim C1: after a fresh open (no stored record visible), N non-control
messages each bump the in-memory count by one and are each answered with a
`message_response` carrying the new count, so the count ends at N; and the
record the subsequent close persists carries messageCount = N.  The message
list ranges over all JSON values that are not the control shape, so any
value that fails to parse as a disconnect object is counted, never
rejected. -/
theorem claim_C1 (s : ServerState) (now : Nat) (ws : WS) (msgs : List JsonVal)
    (hsend : ws.sendOk = true)
    (hfresh : getConnectionState s.redis now ws.connectionId = none)
    (hall : msgs.all (fun m => !(isDisconnectControl m)) = true) :
    mapGet (runMessages now ws (handleWebSocketOpen s now ws).1
        msgs).1.connectionCounts ws.connectionId = some msgs.length ∧
    sentOf (runMessages now ws (handleWebSocketOpen s now ws).1 msgs).2 =
      (List.range msgs.length).map
        (fun i => OutMessage.messageResponse (i + 1) now) ∧
    (s.redis.available = true → s.redis.opFails = false →
      getConnectionState
          (handleWebSocketClose
            (runMessages now ws (handleWebSocketOpen s now ws).1 msgs).1 now
            ws).1.redis now ws.connectionId =
        some ⟨ws.connectionId, msgs.length, now,
              .disconnected now "connection_closed"⟩) := by
  obtain ⟨hcounts, -, -, -, -, -, -, -, -⟩ := handleWebSocketOpen_shape s now ws
  have hseed : openSeed s now ws.connectionId = 0 := by
    simp [openSeed, hfresh]
  have hc0 : mapGet (handleWebSocketOpen s now ws).1.connectionCounts
      ws.connectionId = some 0 := by
    rw [hcounts, hseed]
    exact mapGet_mapSet_self _ _ _
  have hrun := runMessages_play now ws msgs (handleWebSocketOpen s now ws).1 0
    hsend hall hc0
  have hcount : mapGet (runMessages now ws (handleWebSocketOpen s now ws).1
      msgs).1.connectionCounts ws.connectionId = some msgs.length := by
    simpa using hrun.1
  refine ⟨hcount, ?_, ?_⟩
  · rw [hrun.2.1, responseList_eq_range]
    apply List.map_congr_left
    intro i _
    congr 2
    omega
  · intro hav hop
    have hopenflags := storeConnectionState_flags s.redis now ws.connectionId
      (openSeed s now ws.connectionId) (.connected now
        (match getConnectionState s.redis now ws.connectionId with
         | some _ => isRedisAvailable s.redis
         | none => false))
    have hopenred : (handleWebSocketOpen s now ws).1.redis =
        (storeConnectionState s.redis now ws.connectionId
          (openSeed s now ws.connectionId)
          (.connected now
            (match getConnectionState s.redis now ws.connectionId with
             | some _ => isRedisAvailable s.redis
             | none => false))).1 := by
      rcases hget : getConnectionState s.redis now ws.connectionId with _ | st
      · simp [handleWebSocketOpen, hget, openSeed, startHeartbeat]
      · by_cases hav2 : isRedisAvailable s.redis <;>
          simp [handleWebSocketOpen, hget, hav2, openSeed, startHeartbeat]
    have havail2 : (runMessages now ws (handleWebSocketOpen s now ws).1
        msgs).1.redis.available = true := by
      rw [hrun.2.2.1, hopenred, hopenflags.1, hav]
    have hop2 : (runMessages now ws (handleWebSocketOpen s now ws).1
        msgs).1.redis.opFails = false := by
      rw [hrun.2.2.2, hopenred, hopenflags.2, hop]
    have hshape := handleWebSocketClose_shape
      (runMessages now ws (handleWebSocketOpen s now ws).1 msgs).1 now ws
    rw [hshape.2.2.2.2.2.2.1, hcount]
    exact getConnectionState_after_store _ now ws.connectionId _ _ havail2 hop2

/-- Witness for C1: open `c1` against the reachable empty store, send two
non-control messages (a string and a number), and close: the replies carry
counts 1 and 2, the in-memory count ends at 2, and the persisted terminal
record carries messageCount 2. -/
theorem claim_C1_witness :
    mapGet (runMessages 5 wsC1 (handleWebSocketOpen stateUp 5 wsC1).1
        [JsonVal.str "x", JsonVal.num 3]).1.connectionCounts "c1" = some 2 ∧
    sentOf (runMessages 5 wsC1 (handleWebSocketOpen stateUp 5 wsC1).1
        [JsonVal.str "x", JsonVal.num 3]).2 =
      [.messageResponse 1 5, .messageResponse 2 5] ∧
    getConnectionState
        (handleWebSocketClose (runMessages 5 wsC1
          (handleWebSocketOpen stateUp 5 wsC1).1
          [JsonVal.str "x", JsonVal.num 3]).1 5 wsC1).1.redis 5 "c1" =
      some ⟨"c1", 2, 5, .disconnected 5 "connection_closed"⟩ := by
  have h := claim_C1 stateUp 5 wsC1 [JsonVal.str "x", JsonVal.num 3]
    rfl rfl rfl
  exact ⟨h.1, h.2.1, h.2.2 rfl rfl⟩

/-- The events a drain step may emit: store puts, shutdown notices (sent or
failed), and transport closes. -/
def isDrainEvent : Event → Bool
  | .storePut _ _ _ => true
  | .sent (.shutdown _ _ _ _) => true
  | .sendFailed (.shutdown _ _ _ _) => true
  | .scheduledRawClose _ _ _ => true
  | .rawClose _ _ => true
  | _ => false

theorem gracefullyCloseConnection_events (s : ServerState) (now : Nat)
    (id : String) (sendOk : Bool) (reason : String) :
    ∀ e ∈ (gracefullyCloseConnection s now (some id) sendOk reason).2,
      isDrainEvent e = true := by
  intro e he
  cases sendOk <;>
    · simp [gracefullyCloseConnection] at he
      rcases he with h | h | h <;> subst h <;> rfl

theorem drainConnections_events (now : Nat) :
    ∀ (l : List (String × WS)) (s : ServerState),
    ∀ e ∈ (drainConnections now s l).2, isDrainEvent e = true := by
  intro l
  induction l with
  | nil =>
    intro s e he
    simp [drainConnections] at he
  | cons p rest ih =>
    intro s e he
    obtain ⟨id, ws⟩ := p
    simp only [drainConnections, List.mem_append] at he
    rcases he with h | h
    · exact gracefullyCloseConnection_events _ now id ws.sendOk
        "server_shutdown" e h
    · exact ih _ e h

theorem drainConnections_sends (now : Nat) :
    ∀ (l : List (String × WS)) (s : ServerState) (p : String × WS),
    p ∈ l → p.2.sendOk = true →
    ∃ total, Event.sent (.shutdown total "server_shutdown" true now) ∈
      (drainConnections now s l).2 := by
  intro l
  induction l with
  | nil =>
    intro s p hp
    simp at hp
  | cons q rest ih =>
    intro s p hp hok
    obtain ⟨id, ws⟩ := q
    rcases List.mem_cons.mp hp with h | h
    · subst h
      refine ⟨(mapGet s.connectionCounts id).getD 0, ?_⟩
      have hws : ws.sendOk = true := hok
      simp only [drainConnections, List.mem_append]
      left
      simp [gracefullyCloseConnection, hws]
    · obtain ⟨tot, htot⟩ := ih _ p h hok
      refine ⟨tot, ?_⟩
      simp only [drainConnections, List.mem_append]
      right
      exact htot

/-- Claim C7: on a termination signal the coordinator flips readiness off
before any connection is touched, then drains every registered session
through graceful close, closes the store's backing connection only after the
drain, records the shutdown duration, and schedules process exit 0 after the
fixed 10 s grace window -- the trace equation fixes that order, and every
event between the readiness flip and the store close is a drain event.
Afterwards all four registry maps are empty.  If a step throws, the handler
exits with status 1 instead of hanging. -/
theorem claim_C7 (w : World) (now : Nat) :
    (gracefulShutdown w now false).2 =
      [.shuttingDownSet true, .readySet false] ++
        (cleanupAllConnections w.server now).2 ++
        [.redisClosedEv, .shutdownRecorded, .scheduledExit 10000 0] ∧
    (∀ e ∈ (cleanupAllConnections w.server now).2, isDrainEvent e = true) ∧
    (∀ p ∈ w.server.activeConnections, p.2.sendOk = true →
      ∃ total, Event.sent (.shutdown total "server_shutdown" true now) ∈
        (gracefulShutdown w now false).2) ∧
    (gracefulShutdown w now false).1.ready = false ∧
    (gracefulShutdown w now false).1.shuttingDown = true ∧
    (gracefulShutdown w now false).1.server.activeConnections = [] ∧
    (gracefulShutdown w now false).1.server.heartbeatIntervals = [] ∧
    (gracefulShutdown w now false).1.server.connectionCounts = [] ∧
    (gracefulShutdown w now false).1.server.connectionStartTimes = [] ∧
    (gracefulShutdown w now false).1.server.redis.available = false ∧
    (gracefulShutdown w now false).1.shutdownTimeRecorded = true ∧
    (gracefulShutdown w now false).1.exitScheduled = some (10000, 0) ∧
    (gracefulShutdown w now true).2 =
      [.shuttingDownSet true, .readySet false, .exitNow 1] := by
  refine ⟨rfl, ?_, ?_, rfl, rfl, rfl, rfl, rfl, rfl, rfl, rfl, rfl, rfl⟩
  · intro e he
    exact drainConnections_events now w.server.activeConnections w.server e he
  · intro p hp hok
    obtain ⟨tot, htot⟩ :=
      drainConnections_sends now w.server.activeConnections w.server p hp hok
    refine ⟨tot, ?_⟩
    have : (gracefulShutdown w now false).2 =
        [.shuttingDownSet true, .readySet false] ++
          (cleanupAllConnections w.server now).2 ++
          [.redisClosedEv, .shutdownRecorded, .scheduledExit 10000 0] := rfl
    rw [this]
    simp only [List.mem_append]
    left
    right
    exact htot

/-- A running world holding the open session `c1`, used for shutdown. -/
def worldW : World :=
  ⟨true, false, (handleWebSocketOpen stateUp 5 wsC1).1, false, none⟩

/-- Witness for C7: shutting down the world with the single open session
`c1` empties the registry, flips readiness off, schedules the 10 s exit, and
the `c1` session received its shutdown notice. -/
theorem claim_C7_witness :
    (gracefulShutdown worldW 9 false).1.server.activeConnections = [] ∧
    (gracefulShutdown worldW 9 false).1.ready = false ∧
    (gracefulShutdown worldW 9 false).1.exitScheduled = some (10000, 0) ∧
    Event.sent (.shutdown 0 "server_shutdown" true 9) ∈
      (gracefulShutdown worldW 9 false).2 := by
  have h := claim_C7 worldW 9
  refine ⟨h.2.2.2.2.2.1, h.2.2.2.1, h.2.2.2.2.2.2.2.2.2.2.2.1, ?_⟩
  have hsent := h.2.2.1 ("c1", wsC1) (by decide) rfl
  exact by decide

end ConcurrentSockets
